import Mathlib

/-!
Verification of the EdAgent backend core (src/backend/main.py):
competency extraction, company scoring, letter rendering, the fixed
outreach communication plan, and the vacancy-analysis batch loop.

Python floats are modelled by exact rationals; Python ints by integers;
Python strings by Lean strings, with lowercasing modelled character by
character over the char list (the vocabulary involved is ASCII, where
Python str.lower is exactly the per-character map).
-/

/-- Per-character lowercasing of a string, the model of Python str.lower
as used on the ASCII competency vocabulary and vacancy text. -/
def lowerChars (s : String) : List Char := s.toList.map Char.toLower

/-- Substring containment on character lists: the model of the Python
string operator in, true when the needle occurs contiguously in the hay. -/
def containsSub (needle hay : List Char) : Bool :=
  decide ( List.IsInfix needle hay)

/-- The fixed recognized competency vocabulary of
VacancyService.extract_competencies (main.py lines 174-178). -/
def keywords : List String :=
  ["Python", "JavaScript", "SQL", "Machine Learning", "Java",
   "DevOps", "AWS", "React", "Kubernetes", "Go", "C++",
   "Docker", "Microservices", "GraphQL", "Rust"]

/-- VacancyService.extract_competencies (main.py lines 169-184): keeps the
vocabulary entries whose lowercase form occurs in the lowercased input. -/
def extract_competencies (vacancy_description : String) : List String :=
  keywords.filter (fun kw => containsSub (lowerChars kw) (lowerChars vacancy_description))

/-- The fixed scoring reference set of CompanyService.calculate_company_score
(main.py line 200). -/
def tech_keywords : List String := ["Python", "Go", "Java", "Kubernetes", "Docker"]

/-- The tech-stack component of the score (main.py lines 200-202):
entries of tech_stack that are in the reference set, counted with
multiplicity, divided by the reference-set size and weighted by 40. -/
def techScore (tech_stack : List String) : ℚ :=
  (((tech_stack.filter (fun t => decide (t ∈ tech_keywords))).length : ℚ) /
    (tech_keywords.length : ℚ)) * 40

/-- The company-size component of the score (main.py lines 204-208). -/
def sizeScore (employees : ℤ) : ℚ :=
  if 100 ≤ employees ∧ employees ≤ 10000 then 20
  else if (10 ≤ employees ∧ employees < 100) ∨ 10000 < employees then 10
  else 0

/-- The funding component of the score (main.py lines 213-215); the Python
truthiness test makes both a missing and an empty funding string score 0. -/
def fundingScore : Option String → ℚ
  | none => 0
  | some f => if f ≠ "" ∧ f ≠ "Unknown" then 10 else 0

/-- CompanyService.calculate_company_score (main.py lines 189-217): the four
weighted components are summed and the sum is clamped from above by 100. -/
def calculate_company_score (tech_stack : List String) (employees : ℤ)
    (competency_match : ℚ) (funding : Option String) : ℚ :=
  min (techScore tech_stack + sizeScore employees +
    competency_match * 0.3 + fundingScore funding) 100

/-- C1: for every tech stack, every employee count, every funding value and
every competency match percentage in the closed interval from 0 to 100, the
score lies within the closed interval from 0 to 100. -/
theorem score_within_bounds (tech_stack : List String) (employees : ℤ)
    (competency_match : ℚ) (funding : Option String)
    (h0 : 0 ≤ competency_match) (h1 : competency_match ≤ 100) :
    0 ≤ calculate_company_score tech_stack employees competency_match funding ∧
      calculate_company_score tech_stack employees competency_match funding ≤ 100 := by
  have ht : 0 ≤ techScore tech_stack := by
    unfold techScore
    positivity
  have hs : 0 ≤ sizeScore employees := by
    unfold sizeScore
    split_ifs <;> norm_num
  have hf : 0 ≤ fundingScore funding := by
    cases funding with
    | none => simp [fundingScore]
    | some f =>
      simp only [fundingScore]
      split_ifs <;> norm_num
  have hm : 0 ≤ competency_match * 0.3 := by positivity
  unfold calculate_company_score
  constructor
  · exact le_min (by linarith) (by norm_num)
  · exact min_le_right _ _

/-- Witness for C1 at a concrete input. -/
theorem score_within_bounds_witness :
    (0 : ℚ) ≤ 50 ∧ (50 : ℚ) ≤ 100 ∧
      (0 ≤ calculate_company_score ["Python"] 500 50 (some "Series B") ∧
        calculate_company_score ["Python"] 500 50 (some "Series B") ≤ 100) :=
  ⟨by norm_num, by norm_num,
    score_within_bounds ["Python"] 500 50 (some "Series B") (by norm_num) (by norm_num)⟩

/-- C2: the score is clamped only from above; at the specific input of an
empty tech stack, zero employees, a competency match of minus 1000 and no
funding, the score is the negative value minus 300. -/
theorem score_no_lower_clamp :
    calculate_company_score [] 0 (-1000) none = -300 ∧
      calculate_company_score [] 0 (-1000) none < 0 := by
  have h : calculate_company_score [] 0 (-1000) none = -300 := by
    unfold calculate_company_score techScore sizeScore fundingScore
    norm_num [min_def]
  exact ⟨h, by rw [h]; norm_num⟩

/-- C6: with every other component neutral, the headcount contribution to the
score is 20 for employees between 100 and 10000 inclusive, 10 for employees
between 10 and 99 or above 10000, and 0 otherwise; in particular 99 maps to
10, 100 to 20, 10000 to 20 and 10001 to 10. -/
theorem headcount_component (employees : ℤ) :
    calculate_company_score [] employees 0 none =
      (if 100 ≤ employees ∧ employees ≤ 10000 then (20 : ℚ)
       else if (10 ≤ employees ∧ employees < 100) ∨ 10000 < employees then 10
       else 0) ∧
    calculate_company_score [] 99 0 none = 10 ∧
    calculate_company_score [] 100 0 none = 20 ∧
    calculate_company_score [] 10000 0 none = 20 ∧
    calculate_company_score [] 10001 0 none = 10 := by
  have h : ∀ e : ℤ, calculate_company_score [] e 0 none =
      (if 100 ≤ e ∧ e ≤ 10000 then (20 : ℚ)
       else if (10 ≤ e ∧ e < 100) ∨ 10000 < e then 10 else 0) := by
    intro e
    unfold calculate_company_score techScore sizeScore fundingScore
    split_ifs <;> norm_num [min_def]
  refine ⟨h employees, ?_, ?_, ?_, ?_⟩ <;> rw [h] <;> norm_num

/-- C8: the tech-stack component equals the number of tech stack entries in
the fixed reference set, counted with multiplicity, divided by 5 and weighted
by 40; a duplicated reference keyword counts once per occurrence, so two
copies of Python contribute twice what one copy contributes. -/
theorem tech_component (tech_stack : List String) :
    calculate_company_score tech_stack 0 0 none =
      min (((tech_stack.countP (fun t => decide (t ∈ tech_keywords))) : ℚ) / 5 * 40) 100 ∧
    techScore ["Python", "Python"] = 2 * techScore ["Python"] ∧
    calculate_company_score ["Python", "Python"] 0 0 none = 16 ∧
    calculate_company_score ["Python"] 0 0 none = 8 := by
  refine ⟨?_, ?_, ?_, ?_⟩
  · unfold calculate_company_score techScore sizeScore fundingScore
    rw [List.countP_eq_length_filter]
    norm_num [tech_keywords]
  · norm_num [techScore, tech_keywords, List.filter]
  · unfold calculate_company_score techScore sizeScore fundingScore
    norm_num [tech_keywords, List.filter, min_def]
  · unfold calculate_company_score techScore sizeScore fundingScore
    norm_num [tech_keywords, List.filter, min_def]

/-- C9: holding the tech stack, the employee count and the funding fixed, the
score is monotone in the competency match percentage. -/
theorem score_monotone_in_match (tech_stack : List String) (employees : ℤ)
    (funding : Option String) (p1 p2 : ℚ) (h : p1 ≤ p2) :
    calculate_company_score tech_stack employees p1 funding ≤
      calculate_company_score tech_stack employees p2 funding := by
  unfold calculate_company_score
  refine min_le_min ?_ le_rfl
  have hm : p1 * 0.3 ≤ p2 * 0.3 :=
    mul_le_mul_of_nonneg_right h (by norm_num)
  linarith

/-- Witness for C9 at a concrete input. -/
theorem score_monotone_in_match_witness :
    (10 : ℚ) ≤ 20 ∧
      calculate_company_score ["Go"] 50 10 none ≤
        calculate_company_score ["Go"] 50 20 none :=
  ⟨by norm_num, score_monotone_in_match ["Go"] 50 none 10 20 (by norm_num)⟩

/-- C10: membership in the scoring reference set is a case-sensitive exact
string comparison, unlike the case-insensitive matching of extraction: the
entry python in lowercase contributes 0 to the score while Python contributes
8, yet the extractor does recognize Python inside lowercase text. -/
theorem tech_membership_case_sensitive :
    calculate_company_score ["python"] 0 0 none = 0 ∧
    calculate_company_score ["Python"] 0 0 none = 8 ∧
    techScore ["python"] = 0 ∧
    "Python" ∈ extract_competencies "python" := by
  have hlow : List.filter (fun t => decide (t ∈ tech_keywords)) ["python"] = [] := by
    decide
  refine ⟨?_, ?_, ?_, ?_⟩
  · unfold calculate_company_score techScore sizeScore fundingScore
    rw [hlow]
    norm_num [tech_keywords, min_def]
  · unfold calculate_company_score techScore sizeScore fundingScore
    norm_num [tech_keywords, List.filter, min_def]
  · unfold techScore
    rw [hlow]
    norm_num
  · decide

/-- The formal letter template of NLPService.generate_letter
(main.py lines 269-286), with the interpolated fields made explicit. -/
def formal_letter (company_name recipient tech_stack : String) : String :=
  "Dear " ++ recipient ++
  ",\n\nI am reaching out to discuss a potential partnership opportunity with " ++
  company_name ++
  ".\n\nWe have identified your company as a leader in " ++ tech_stack ++
  " technologies and believe there is significant potential for collaboration through our ПроКомпетенции program.\n\nOur program brings together talented students with companies seeking innovative solutions. This partnership would provide:\n\n• Access to skilled professionals in " ++
  tech_stack ++
  "\n• Fresh perspectives on your current projects\n• Opportunity to mentor the next generation of engineers\n• Potential for full-time hiring of top performers\n\nI would welcome a conversation about how we can create value for " ++
  company_name ++ ".\n\nBest regards,\nEdAgent AI Team"

/-- The casual letter template of NLPService.generate_letter
(main.py lines 288-300), with the interpolated fields made explicit. -/
def casual_letter (company_name recipient tech_stack : String) : String :=
  "Hey " ++ recipient ++
  "!\n\nWe noticed " ++ company_name ++
  " is doing amazing work with " ++ tech_stack ++
  ". We have a group of talented students who would love to contribute to projects like yours.\n\nThink of it as a win-win:\n✨ You get fresh ideas and extra hands on deck\n✨ They get real-world experience working with your team\n✨ Everyone learns something awesome\n\nInterested in chatting more? Let\x27s set up a quick call.\n\nCheers,\nEdAgent AI Team"

/-- NLPService.generate_letter (main.py lines 259-302): the formal template
is chosen exactly when the style string equals formal, everything else falls
through to the casual template. -/
def generate_letter (company_name recipient tech_stack style : String) : String :=
  if style = "formal" then formal_letter company_name recipient tech_stack
  else casual_letter company_name recipient tech_stack

theorem formal_letter_head (company_name recipient tech_stack : String) :
    (formal_letter company_name recipient tech_stack).data.head? = some 'D' := rfl

theorem casual_letter_head (company_name recipient tech_stack : String) :
    (casual_letter company_name recipient tech_stack).data.head? = some 'H' := rfl

/-- C5: the formal template is selected only by the exact style string
formal; CASUAL in capitals, Formal with a capital letter, and every other
style string fall to the casual template; and for identical inputs the
formal output differs in content from the casual output. -/
theorem generate_letter_tone_selection (company_name recipient tech_stack : String) :
    generate_letter company_name recipient tech_stack "formal" =
      formal_letter company_name recipient tech_stack ∧
    (∀ style, style ≠ "formal" →
      generate_letter company_name recipient tech_stack style =
        casual_letter company_name recipient tech_stack) ∧
    generate_letter company_name recipient tech_stack "CASUAL" =
      casual_letter company_name recipient tech_stack ∧
    generate_letter company_name recipient tech_stack "Formal" =
      casual_letter company_name recipient tech_stack ∧
    generate_letter company_name recipient tech_stack "formal" ≠
      generate_letter company_name recipient tech_stack "casual" := by
  refine ⟨rfl, ?_, ?_, ?_, ?_⟩
  · intro style hst
    simp [generate_letter, hst]
  · simp [generate_letter]
  · simp [generate_letter]
  · intro h
    have h2 : formal_letter company_name recipient tech_stack =
        casual_letter company_name recipient tech_stack := by
      simpa [generate_letter] using h
    have h3 := congrArg (fun s => s.data.head?) h2
    simp only [formal_letter_head, casual_letter_head] at h3
    exact absurd h3 (by decide)

/-- Witness for C5 at a concrete input with a style that is not formal. -/
theorem generate_letter_tone_selection_witness :
    ("banana" : String) ≠ "formal" ∧
      generate_letter "Acme" "Ivan Petrov" "Python" "banana" =
        casual_letter "Acme" "Ivan Petrov" "Python" :=
  ⟨by decide,
    (generate_letter_tone_selection "Acme" "Ivan Petrov" "Python").2.1 "banana" (by decide)⟩

/-- One stage of the outreach communication plan built by the
communications-generation endpoint (main.py lines 427-433). -/
structure PlanStage where
  stage : ℕ
  day : ℕ
  action : String
  description : String
  deriving DecidableEq

/-- The communication plan of the generate_communications endpoint
(main.py lines 409-433): a fixed five-stage literal, built regardless
of the company arguments the endpoint receives. -/
def communication_plan (company_id company_name recipient email tech_stack style : String) :
    List PlanStage :=
  [⟨1, 1, "Email", "Initial personalized letter"⟩,
   ⟨2, 5, "Email follow-up", "Gentle reminder + presentation link"⟩,
   ⟨3, 10, "LinkedIn message", "Direct message to decision maker"⟩,
   ⟨4, 15, "Phone/Meeting", "Direct conversation"⟩,
   ⟨5, 20, "Final offer", "Formal partnership proposal"⟩]

/-- C7: the outreach plan always has exactly 5 stages, with stage numbers
1 to 5 strictly increasing and day offsets 1, 5, 10, 15 and 20, and two
plans built for different companies are identical in every field. -/
theorem communication_plan_fixed
    (a1 a2 a3 a4 a5 a6 b1 b2 b3 b4 b5 b6 : String) :
    (communication_plan a1 a2 a3 a4 a5 a6).length = 5 ∧
    (communication_plan a1 a2 a3 a4 a5 a6).map PlanStage.stage = [1, 2, 3, 4, 5] ∧
    List.Chain' (fun x y => x < y)
      ((communication_plan a1 a2 a3 a4 a5 a6).map PlanStage.stage) ∧
    (communication_plan a1 a2 a3 a4 a5 a6).map PlanStage.day = [1, 5, 10, 15, 20] ∧
    communication_plan a1 a2 a3 a4 a5 a6 = communication_plan b1 b2 b3 b4 b5 b6 := by
  refine ⟨rfl, rfl, ?_, rfl, rfl⟩
  show List.Chain' (fun x y => x < y) [1, 2, 3, 4, 5]
  norm_num [List.chain'_cons, List.chain'_singleton]

/-- C4: extraction returns exactly the vocabulary entries whose lowercase
form is a substring of the lowercased input; on empty input it returns the
empty result, and identical input always yields the identical result. -/
theorem extract_competencies_spec (text : String) :
    (∀ kw, kw ∈ extract_competencies text ↔
      kw ∈ keywords ∧ List.IsInfix (lowerChars kw) (lowerChars text)) ∧
    extract_competencies "" = [] ∧
    extract_competencies text = extract_competencies text := by
  refine ⟨?_, ?_, rfl⟩
  · intro kw
    simp [extract_competencies, List.mem_filter, containsSub]
  · decide

/-- Extraction as invoked by the analyze_vacancies endpoint
(main.py lines 366-369): the description passed in is
vacancy.get with defaults, so a JSON null requirement reaches
extract_competencies as None, where calling lower raises; a string
extracts normally. -/
def extract_from_description : Option String → Except String (List String)
  | none => Except.error "AttributeError: None has no attribute lower"
  | some s => Except.ok (extract_competencies s)

/-- The extraction loop of analyze_vacancies (main.py lines 365-369):
descriptions are processed in order, extending the accumulator; an
exception propagates out of the loop to the surrounding handler, which
turns it into an HTTP 500 response (main.py lines 381-383). -/
def analyzeLoop : List (Option String) → List String → Except String (List String)
  | [], acc => Except.ok acc
  | d :: rest, acc =>
    match extract_from_description d with
    | Except.error e => Except.error e
    | Except.ok cs => analyzeLoop rest (acc ++ cs)

/-- The analyze_vacancies endpoint (main.py lines 354-383) restricted to its
competency aggregation: only the first 10 vacancy descriptions are sampled;
on success the endpoint reports the set of accumulated competencies, on an
exception it reports an error and no aggregate at all.  Membership in the
returned accumulator is membership in the reported set, since the final
Python list set conversion only removes duplicates. -/
def analyze_vacancies (descriptions : List (Option String)) : Except String (List String) :=
  analyzeLoop (descriptions.take 10) []

theorem analyzeLoop_error_of_none (ds : List (Option String)) (acc : List String)
    (h : none ∈ ds) : ∃ e, analyzeLoop ds acc = Except.error e := by
  induction ds generalizing acc with
  | nil => simp at h
  | cons d rest ih =>
    cases d with
    | none => exact ⟨_, rfl⟩
    | some s =>
      have h2 : none ∈ rest := by
        rcases List.mem_cons.mp h with h1 | h1
        · exact absurd h1.symm (by simp)
        · exact h1
      simpa [analyzeLoop, extract_from_description] using
        ih (acc ++ extract_competencies s) h2

theorem analyzeLoop_ok_of_all_some (ds : List (Option String)) (acc : List String)
    (h : ∀ d ∈ ds, d ≠ none) :
    ∃ l, analyzeLoop ds acc = Except.ok l ∧ (∀ x ∈ acc, x ∈ l) ∧
      ∀ s kw, some s ∈ ds → kw ∈ extract_competencies s → kw ∈ l := by
  induction ds generalizing acc with
  | nil => exact ⟨acc, rfl, fun x hx => hx, by simp⟩
  | cons d rest ih =>
    cases d with
    | none => exact absurd rfl (h none (by simp))
    | some s =>
      obtain ⟨l, hl, hacc, hrest⟩ :=
        ih (acc ++ extract_competencies s) (fun d hd => h d (List.mem_cons_of_mem _ hd))
      refine ⟨l, ?_, ?_, ?_⟩
      · simpa [analyzeLoop, extract_from_description] using hl
      · intro x hx
        exact hacc x (List.mem_append_left _ hx)
      · intro s2 kw hs2 hkw
        rcases List.mem_cons.mp hs2 with h1 | h1
        · cases Option.some.inj h1
          exact hacc kw (List.mem_append_right _ hkw)
        · exact hrest s2 kw h1 hkw

/-- Counterexample to C3: in a two-item batch whose first description is
None and whose second mentions Python, the batch aborts with an error and
no aggregate is produced, even though the second item alone would have
contributed Python. -/
theorem analyze_vacancies_abort_counterexample :
    analyze_vacancies [none, some "We use Python"] =
      Except.error "AttributeError: None has no attribute lower" ∧
    "Python" ∈ extract_competencies "We use Python" := by
  exact ⟨rfl, by decide⟩

/-- C3 amended: a failure while extracting competencies from one vacancy
aborts the whole batch with an error and no aggregate is produced; only
when every sampled description extracts successfully does the endpoint
return an aggregate, and that aggregate contains every competency extracted
from each sampled item. -/
theorem analyze_vacancies_failure_aborts (descriptions : List (Option String)) :
    (none ∈ descriptions.take 10 →
      ∃ e, analyze_vacancies descriptions = Except.error e) ∧
    ((∀ d ∈ descriptions.take 10, d ≠ none) →
      ∃ l, analyze_vacancies descriptions = Except.ok l ∧
        ∀ s kw, some s ∈ descriptions.take 10 → kw ∈ extract_competencies s → kw ∈ l) := by
  constructor
  · intro h
    exact analyzeLoop_error_of_none (descriptions.take 10) [] h
  · intro h
    obtain ⟨l, hl, _, hmem⟩ := analyzeLoop_ok_of_all_some (descriptions.take 10) [] h
    exact ⟨l, hl, hmem⟩

/-- Witness for the amended C3, discharging each hypothesis at a concrete
batch. -/
theorem analyze_vacancies_failure_aborts_witness :
    (∃ e, analyze_vacancies [none] = Except.error e) ∧
    (∃ l, analyze_vacancies [some "Python"] = Except.ok l ∧
      ∀ s kw, some s ∈ ([some "Python"] : List (Option String)).take 10 →
        kw ∈ extract_competencies s → kw ∈ l) :=
  ⟨(analyze_vacancies_failure_aborts [none]).1 (by simp),
    (analyze_vacancies_failure_aborts [some "Python"]).2 (by simp)⟩
